import Mathlib

/-!
Verification of the V2V cooperative-awareness engine
(`src/v2v/messages.py`, `src/v2v/network_enhanced.py`, `src/v2v/api.py`).

Python dictionaries are embedded as association lists with the usual
python semantics: assignment replaces the value in place (keeping the
original insertion position) or appends a fresh entry, `pop(k, None)`
removes the entry when present, and lookup returns an `Option`.
Machine floats are embedded as real numbers; the only non-finite float
the code ever produces is `float('inf')` for the time-to-collision, so
that single quantity is embedded as `PyFloat` (a real number or `inf`).
-/

namespace V2V

/-- Lookup in a python dict: `d.get(k)`. -/
def pyGet? [BEq α] : List (α × β) → α → Option β
  | [], _ => none
  | p :: rest, k => if p.1 == k then some p.2 else pyGet? rest k

/-- Assignment in a python dict: `d[k] = v` (replace in place, else append). -/
def pySet [BEq α] : List (α × β) → α → β → List (α × β)
  | [], k, v => [(k, v)]
  | p :: rest, k, v => if p.1 == k then (k, v) :: rest else p :: pySet rest k v

/-- Removal from a python dict: `d.pop(k, None)`.  Dict keys are unique, so
removing the entry is the same as filtering the key out. -/
def pyPop [BEq α] (d : List (α × β)) (k : α) : List (α × β) :=
  d.filter (fun p => ¬ p.1 == k)

/-- A python float as produced by this code base: a finite value or `float('inf')`. -/
inductive PyFloat where
  | fin (x : ℝ)
  | inf

/-- Comparison `f > c` of a python float against a finite bound. -/
noncomputable def PyFloat.gtB : PyFloat → ℝ → Bool
  | .fin x, c => decide (x > c)
  | .inf, _ => true

/-! ### `messages.py` : the BSM data model -/

/-- Vehicle classification (`messages.VehicleType`). -/
inductive VehicleType where
  | passenger_car
  | bus
  | truck
  | motorcycle
  | emergency
  | unknown
  deriving DecidableEq

/-- Braking system status (`messages.BrakingStatus`). -/
inductive BrakingStatus where
  | unavailable
  | off
  | on
  | engaged
  deriving DecidableEq

/-- Basic Safety Message core data (`messages.BSMCore`). -/
structure BSMCore where
  timestamp : ℝ
  msg_count : ℕ
  vehicle_id : ℕ
  vehicle_type : VehicleType
  latitude : ℝ
  longitude : ℝ
  elevation : ℝ
  position_accuracy : ℝ
  speed : ℝ
  heading : ℝ
  steering_angle : ℝ
  longitudinal_accel : ℝ
  lateral_accel : ℝ
  vertical_accel : ℝ
  yaw_rate : ℝ
  vehicle_length : ℝ
  vehicle_width : ℝ
  vehicle_height : ℝ
  brake_status : BrakingStatus
  brake_pressure : ℝ
  transmission_state : String
  throttle_confidence : ℝ
  brake_confidence : ℝ
  steering_confidence : ℝ

/-- `math.radians`. -/
noncomputable def radians (deg : ℝ) : ℝ := deg * Real.pi / 180

/-- `calculate_threat_level` (messages.py, lines 163-209): returns
`(threat_level, time_to_collision, distance)`. -/
noncomputable def calculate_threat_level (ego_bsm other_bsm : BSMCore) : ℕ × PyFloat × ℝ :=
  let dx := other_bsm.latitude - ego_bsm.latitude
  let dy := other_bsm.longitude - ego_bsm.longitude
  let distance := Real.sqrt (dx ^ 2 + dy ^ 2)
  let ego_vx := ego_bsm.speed * Real.cos (radians ego_bsm.heading)
  let ego_vy := ego_bsm.speed * Real.sin (radians ego_bsm.heading)
  let other_vx := other_bsm.speed * Real.cos (radians other_bsm.heading)
  let other_vy := other_bsm.speed * Real.sin (radians other_bsm.heading)
  let rel_vx := other_vx - ego_vx
  let rel_vy := other_vy - ego_vy
  let rel_speed := Real.sqrt (rel_vx ^ 2 + rel_vy ^ 2)
  let ttc : PyFloat := if rel_speed > 0.1 then PyFloat.fin (distance / rel_speed) else PyFloat.inf
  let threat : ℕ :=
    if distance > 100 then 0
    else if ttc.gtB 10 then 1
    else if ttc.gtB 5 then 2
    else if ttc.gtB 2 then 3
    else 4
  (threat, ttc, distance)

/-- Spec-side planar Euclidean distance between two BSM positions
(elevation ignored), following the spec's wording. -/
noncomputable def planarDistance (a b : BSMCore) : ℝ :=
  Real.sqrt ((b.latitude - a.latitude) ^ 2 + (b.longitude - a.longitude) ^ 2)

/-- Spec-side relative speed: magnitude of the difference of the two
velocity vectors, each decomposed from `(speed, heading)`. -/
noncomputable def relativeSpeed (a b : BSMCore) : ℝ :=
  Real.sqrt ((b.speed * Real.cos (radians b.heading) - a.speed * Real.cos (radians a.heading)) ^ 2
    + (b.speed * Real.sin (radians b.heading) - a.speed * Real.sin (radians a.heading)) ^ 2)

/-- Spec-side TTC rule: `distance / relativeSpeed` when `relativeSpeed > 0.1`,
else `+inf`. -/
noncomputable def ttcRule (distance rel_speed : ℝ) : PyFloat :=
  if rel_speed > 0.1 then PyFloat.fin (distance / rel_speed) else PyFloat.inf

/-- Spec-side threat-level rule, first match in the fixed order of the claim:
`distance > 100` gives 0; else `ttc > 10` gives 1; else `ttc > 5` gives 2;
else `ttc > 2` gives 3; else 4. -/
noncomputable def threatLevelRule (distance : ℝ) (ttc : PyFloat) : ℕ :=
  if distance > 100 then 0
  else if ttc.gtB 10 then 1
  else if ttc.gtB 5 then 2
  else if ttc.gtB 2 then 3
  else 4

/-- Kinematic sample of one CARLA actor at one instant: everything
`create_bsm_from_carla` reads from the live actor handle. -/
structure KinematicSample where
  loc_x : ℝ
  loc_y : ℝ
  loc_z : ℝ
  yaw : ℝ
  vel_x : ℝ
  vel_y : ℝ
  vel_z : ℝ
  throttle : ℝ
  brake : ℝ
  steer : ℝ
  reverse : Bool
  extent_x : ℝ
  extent_y : ℝ
  extent_z : ℝ

/-- Python float modulo `x % m` for positive `m` (used for `yaw % 360`). -/
noncomputable def pyFloatMod (x m : ℝ) : ℝ := x - m * ((Int.floor (x / m) : ℤ) : ℝ)

/-- `create_bsm_from_carla` (messages.py, lines 212-289). The CARLA actor
is embedded as the kinematic sample the live handle would report; `now`
is the wall clock `time.time()`. The guard on `prev_velocity` is python
truthiness: `0.0` counts as absent. -/
noncomputable def create_bsm_from_carla (k : KinematicSample) (vehicle_id msg_count : ℕ)
    (prev_velocity : ℝ) (delta_time : ℝ) (now : ℝ) : BSMCore :=
  let speed_ms := Real.sqrt (k.vel_x ^ 2 + k.vel_y ^ 2 + k.vel_z ^ 2)
  let long_accel : ℝ :=
    if prev_velocity ≠ 0 then (if delta_time > 0 then (speed_ms - prev_velocity) / delta_time else 0)
    else 0
  let brake_status : BrakingStatus :=
    if k.brake > 0.5 then .engaged else if k.brake > 0.1 then .on else .off
  let trans_state : String :=
    if k.reverse then "reverse" else if k.throttle > 0 then "forward" else "neutral"
  { timestamp := now
    msg_count := msg_count % 128
    vehicle_id := vehicle_id
    vehicle_type := .passenger_car
    latitude := k.loc_x
    longitude := k.loc_y
    elevation := k.loc_z
    position_accuracy := 0.5
    speed := speed_ms
    heading := pyFloatMod k.yaw 360
    steering_angle := k.steer * 70
    longitudinal_accel := long_accel
    lateral_accel := 0
    vertical_accel := 0
    yaw_rate := 0
    vehicle_length := k.extent_x * 2
    vehicle_width := k.extent_y * 2
    vehicle_height := k.extent_z * 2
    brake_status := brake_status
    brake_pressure := k.brake * 100
    transmission_state := trans_state
    throttle_confidence := 100
    brake_confidence := 100
    steering_confidence := 100 }

/-- `V2V_RANGE_MEDIUM` (messages.py). -/
def V2V_RANGE_MEDIUM : ℝ := 150

/-- `SHARE_SENSOR_DATA_DISTANCE` (messages.py): share sensor data within 50 m. -/
def SHARE_SENSOR_DATA_DISTANCE : ℝ := 50

/-! ### `network_enhanced.py` : the network coordinator

The coordinator state is the set of fields of class `V2VNetworkEnhanced`.
The CARLA actor handles stored in `self.vehicles` are external objects; the
registry is embedded as the insertion-ordered list of registered ids, and
the data a live handle would report at the moment of an update is passed to
`update` as a function `actorData : ℕ → KinematicSample`.  The `self.world`
handle is likewise external: `update` receives `worldSnap`, the snapshot
`self.world.get_snapshot()` would return (`none` when `self.world is None`).
The wall clock `time.time()` is passed as `currentTime`. -/

/-- The motion snapshot object.  `V2VNetworkEnhanced.update` never reads any
field of it (it only compares the object against `None`); the set of actor
ids it contains is carried so that statements about snapshot membership can
be made. -/
structure Snapshot where
  ids : List ℕ

/-- The `self.stats` dictionary. -/
structure NetworkStats where
  total_messages_sent : ℕ
  total_messages_received : ℕ
  average_neighbors : ℝ
  max_neighbors : ℕ
  cooperative_shares : ℕ

/-- One value of the `self.threats` dictionary. -/
structure ThreatRecord where
  level : ℕ
  ttc : PyFloat
  distance : ℝ
  timestamp : ℝ

/-- The mutable state of class `V2VNetworkEnhanced`. -/
structure V2VNetworkEnhanced where
  max_range : ℝ
  update_rate_hz : ℝ
  update_interval : ℝ
  enable_coop_perception : Bool
  vehicles : List ℕ
  bsm_messages : List (ℕ × BSMCore)
  enhanced_messages : List (ℕ × Unit)
  msg_counters : List (ℕ × ℕ)
  neighbors : List (ℕ × List ℕ)
  distances : List ((ℕ × ℕ) × ℝ)
  threats : List ((ℕ × ℕ) × ThreatRecord)
  prev_speeds : List (ℕ × ℝ)
  last_update_time : ℝ
  stats : NetworkStats

/-- `V2VNetworkEnhanced.__init__`. -/
noncomputable def V2VNetworkEnhanced.init (max_range update_rate_hz : ℝ)
    (enable_cooperative_perception : Bool) : V2VNetworkEnhanced :=
  { max_range := max_range
    update_rate_hz := update_rate_hz
    update_interval := 1 / update_rate_hz
    enable_coop_perception := enable_cooperative_perception
    vehicles := []
    bsm_messages := []
    enhanced_messages := []
    msg_counters := []
    neighbors := []
    distances := []
    threats := []
    prev_speeds := []
    last_update_time := 0
    stats :=
      { total_messages_sent := 0
        total_messages_received := 0
        average_neighbors := 0
        max_neighbors := 0
        cooperative_shares := 0 } }

/-- `V2VNetworkEnhanced.register` (the world-handle bookkeeping is external,
see the section comment). -/
def V2VNetworkEnhanced.register (s : V2VNetworkEnhanced) (vehicle_id : ℕ) :
    V2VNetworkEnhanced :=
  { s with
    vehicles := if s.vehicles.contains vehicle_id then s.vehicles else s.vehicles ++ [vehicle_id]
    msg_counters := pySet s.msg_counters vehicle_id 0
    neighbors := pySet s.neighbors vehicle_id []
    prev_speeds := pySet s.prev_speeds vehicle_id 0 }

/-- `V2VNetworkEnhanced.unregister`. -/
def V2VNetworkEnhanced.unregister (s : V2VNetworkEnhanced) (vehicle_id : ℕ) :
    V2VNetworkEnhanced :=
  { s with
    vehicles := s.vehicles.filter (fun v => ¬ v == vehicle_id)
    bsm_messages := pyPop s.bsm_messages vehicle_id
    enhanced_messages := pyPop s.enhanced_messages vehicle_id
    msg_counters := pyPop s.msg_counters vehicle_id
    neighbors := pyPop s.neighbors vehicle_id
    prev_speeds := pyPop s.prev_speeds vehicle_id }

/-- `V2VNetworkEnhanced.should_update` at wall clock `currentTime`. -/
noncomputable def V2VNetworkEnhanced.should_update (s : V2VNetworkEnhanced)
    (currentTime : ℝ) : Bool :=
  decide (currentTime - s.last_update_time ≥ s.update_interval)

/-- The body of the BSM refresh loop in `update` (lines 149-158): for each
registered vehicle build a BSM from the live actor data via `_create_bsm`
(which reads `prev_speeds.get(id, 0.0)` and `msg_counters.get(id, 0)`),
store it, advance the message counter modulo 128 and record the speed. -/
noncomputable def refreshLoop (actorData : ℕ → KinematicSample) (now delta_time : ℝ) :
    V2VNetworkEnhanced → List ℕ → V2VNetworkEnhanced
  | st, [] => st
  | st, vid :: rest =>
    let prev := (pyGet? st.prev_speeds vid).getD 0
    let cnt := (pyGet? st.msg_counters vid).getD 0
    let bsm := create_bsm_from_carla (actorData vid) vid cnt prev delta_time now
    refreshLoop actorData now delta_time
      { st with
        bsm_messages := pySet st.bsm_messages vid bsm
        msg_counters := pySet st.msg_counters vid ((cnt + 1) % 128)
        prev_speeds := pySet st.prev_speeds vid bsm.speed } rest

/-- The reset loop at the top of `_discover_neighbors`:
`self.neighbors[vid] = []` for every registered id. -/
def resetNeighbors : V2VNetworkEnhanced → List ℕ → V2VNetworkEnhanced
  | st, [] => st
  | st, vid :: rest => resetNeighbors { st with neighbors := pySet st.neighbors vid [] } rest

/-- The body of the inner pair loop of `_discover_neighbors` (lines 201-221):
skip self, skip a missing BSM, compute the fresh planar distance, store it in
the cache only when the reversed key is absent, and append to the neighbor
list iff the fresh distance is within `max_range`. -/
noncomputable def scanPair (st : V2VNetworkEnhanced) (vid1 : ℕ) (bsm1 : BSMCore)
    (vid2 : ℕ) : V2VNetworkEnhanced :=
  if vid1 = vid2 then st
  else
    match pyGet? st.bsm_messages vid2 with
    | none => st
    | some bsm2 =>
      let dx := bsm2.latitude - bsm1.latitude
      let dy := bsm2.longitude - bsm1.longitude
      let distance := Real.sqrt (dx ^ 2 + dy ^ 2)
      let ds :=
        if (pyGet? st.distances (vid2, vid1)).isSome then st.distances
        else pySet (pySet st.distances (vid1, vid2) distance) (vid2, vid1) distance
      let nb :=
        if distance ≤ st.max_range then
          pySet st.neighbors vid1 (((pyGet? st.neighbors vid1).getD []) ++ [vid2])
        else st.neighbors
      { st with neighbors := nb, distances := ds }

/-- The inner loop of `_discover_neighbors` for a fixed `vid1`. -/
noncomputable def scanInner (vid1 : ℕ) (bsm1 : BSMCore) :
    V2VNetworkEnhanced → List ℕ → V2VNetworkEnhanced
  | st, [] => st
  | st, vid2 :: rest => scanInner vid1 bsm1 (scanPair st vid1 bsm1 vid2) rest

/-- The outer loop of `_discover_neighbors`: skip a `vid1` without a BSM,
otherwise scan it against the whole id list. -/
noncomputable def scanOuter (ids : List ℕ) :
    V2VNetworkEnhanced → List ℕ → V2VNetworkEnhanced
  | st, [] => st
  | st, vid1 :: rest =>
    scanOuter ids
      (match pyGet? st.bsm_messages vid1 with
       | none => st
       | some bsm1 => scanInner vid1 bsm1 st ids) rest

/-- `V2VNetworkEnhanced._discover_neighbors` (lines 186-221). -/
noncomputable def V2VNetworkEnhanced.discover_neighbors (s : V2VNetworkEnhanced) :
    V2VNetworkEnhanced :=
  let vehicle_ids := s.vehicles
  scanOuter vehicle_ids (resetNeighbors s vehicle_ids) vehicle_ids

/-- The body of the inner threat loop of `_assess_threats`. -/
noncomputable def assessPair (now : ℝ) (st : V2VNetworkEnhanced) (vid1 : ℕ)
    (bsm1 : BSMCore) (vid2 : ℕ) : V2VNetworkEnhanced :=
  match pyGet? st.bsm_messages vid2 with
  | none => st
  | some bsm2 =>
    let r := calculate_threat_level bsm1 bsm2
    { st with
      threats := pySet st.threats (vid1, vid2)
        { level := r.1, ttc := r.2.1, distance := r.2.2, timestamp := now } }

/-- The inner threat loop of `_assess_threats` over one neighbor list. -/
noncomputable def assessInner (now : ℝ) (vid1 : ℕ) (bsm1 : BSMCore) :
    V2VNetworkEnhanced → List ℕ → V2VNetworkEnhanced
  | st, [] => st
  | st, vid2 :: rest => assessInner now vid1 bsm1 (assessPair now st vid1 bsm1 vid2) rest

/-- The outer threat loop of `_assess_threats` over `self.neighbors.items()`. -/
noncomputable def assessOuter (now : ℝ) :
    V2VNetworkEnhanced → List (ℕ × List ℕ) → V2VNetworkEnhanced
  | st, [] => st
  | st, (vid1, nbrs) :: rest =>
    assessOuter now
      (match pyGet? st.bsm_messages vid1 with
       | none => st
       | some bsm1 => assessInner now vid1 bsm1 st nbrs) rest

/-- `V2VNetworkEnhanced._assess_threats` (lines 223-244); `now` is
`time.time()` at threat-record creation. -/
noncomputable def V2VNetworkEnhanced.assess_threats (s : V2VNetworkEnhanced) (now : ℝ) :
    V2VNetworkEnhanced :=
  assessOuter now { s with threats := [] } s.neighbors

/-- `V2VNetworkEnhanced._update_stats` (lines 246-253).  Python's
`max(non-empty list of naturals)` equals the fold of `Nat.max` over 0. -/
noncomputable def V2VNetworkEnhanced.update_stats (s : V2VNetworkEnhanced) :
    V2VNetworkEnhanced :=
  let stats1 :=
    if s.neighbors.isEmpty then s.stats
    else
      let neighbor_counts : List ℕ := s.neighbors.map (fun p => p.2.length)
      { s.stats with
        average_neighbors := (neighbor_counts.sum : ℝ) / (neighbor_counts.length : ℝ)
        max_neighbors := neighbor_counts.foldl Nat.max 0 }
  { s with stats :=
      { stats1 with total_messages_sent := stats1.total_messages_sent + s.bsm_messages.length } }

/-- `V2VNetworkEnhanced.update` (lines 123-172).  Returns the python return
value and the state after the call. -/
noncomputable def V2VNetworkEnhanced.update (s : V2VNetworkEnhanced)
    (snapshot : Option Snapshot) (force : Bool) (currentTime : ℝ)
    (worldSnap : Option Snapshot) (actorData : ℕ → KinematicSample) :
    Bool × V2VNetworkEnhanced :=
  if ¬ force ∧ ¬ s.should_update currentTime then (false, s)
  else
    let delta_time := currentTime - s.last_update_time
    let s1 := { s with last_update_time := currentTime }
    let snap : Option Snapshot :=
      match snapshot with
      | some sn => some sn
      | none => worldSnap
    match snap with
    | none => (false, s1)
    | some _ =>
      let s2 := refreshLoop actorData currentTime delta_time s1 s1.vehicles
      let s3 := s2.discover_neighbors
      let s4 := s3.assess_threats currentTime
      let s5 := s4.update_stats
      (true, s5)

/-- `V2VNetworkEnhanced.get_neighbors`. -/
def V2VNetworkEnhanced.get_neighbors (s : V2VNetworkEnhanced) (vehicle_id : ℕ) :
    List BSMCore :=
  ((pyGet? s.neighbors vehicle_id).getD []).filterMap (fun nid => pyGet? s.bsm_messages nid)

/-- `V2VNetworkEnhanced.get_bsm`. -/
def V2VNetworkEnhanced.get_bsm (s : V2VNetworkEnhanced) (vehicle_id : ℕ) :
    Option BSMCore :=
  pyGet? s.bsm_messages vehicle_id

/-- `V2VNetworkEnhanced.get_distance`. -/
def V2VNetworkEnhanced.get_distance (s : V2VNetworkEnhanced) (vid1 vid2 : ℕ) :
    Option ℝ :=
  pyGet? s.distances (vid1, vid2)

/-- One entry of the list `V2VNetworkEnhanced.get_threats` returns: the
copied threat dictionary with the key `other_vehicle_id` added. -/
structure ThreatWithOther where
  level : ℕ
  ttc : PyFloat
  distance : ℝ
  timestamp : ℝ
  other_vehicle_id : ℕ

/-- `V2VNetworkEnhanced.get_threats` (lines 277-296): collect the records
whose subject is `vehicle_id`, then `list.sort(key level, reverse=True)` —
a stable descending sort by level. -/
noncomputable def V2VNetworkEnhanced.get_threats (s : V2VNetworkEnhanced)
    (vehicle_id : ℕ) : List ThreatWithOther :=
  ((s.threats.filter (fun p => p.1.1 == vehicle_id)).map (fun p =>
      { level := p.2.level, ttc := p.2.ttc, distance := p.2.distance,
        timestamp := p.2.timestamp, other_vehicle_id := p.1.2 })).mergeSort
    (fun a b => b.level ≤ a.level)

/-- The opaque sensor payload passed to `enable_bidirectional_sharing`
(never inspected by the coordinator). -/
structure SensorData where
  tag : ℕ

/-- The recipient loop of `enable_bidirectional_sharing` (lines 324-330):
`if distance and distance <= SHARE_SENSOR_DATA_DISTANCE` — python truthiness,
so both a missing (`None`) and a zero distance are rejected. -/
noncomputable def shareLoop (vehicle_id : ℕ) :
    V2VNetworkEnhanced → List ℕ → List ℕ → List ℕ × V2VNetworkEnhanced
  | st, acc, [] => (acc, st)
  | st, acc, nid :: rest =>
    match st.get_distance vehicle_id nid with
    | none => shareLoop vehicle_id st acc rest
    | some d =>
      if d ≠ 0 ∧ d ≤ SHARE_SENSOR_DATA_DISTANCE then
        shareLoop vehicle_id
          { st with stats :=
              { st.stats with cooperative_shares := st.stats.cooperative_shares + 1 } }
          (acc ++ [nid]) rest
      else shareLoop vehicle_id st acc rest

/-- `V2VNetworkEnhanced.enable_bidirectional_sharing` (lines 306-332). -/
noncomputable def V2VNetworkEnhanced.enable_bidirectional_sharing
    (s : V2VNetworkEnhanced) (vehicle_id : ℕ) (sensor_data : SensorData) :
    List ℕ × V2VNetworkEnhanced :=
  if ¬ s.enable_coop_perception then ([], s)
  else shareLoop vehicle_id s [] ((pyGet? s.neighbors vehicle_id).getD [])

/-! ### `api.py` : the threats endpoint -/

/-- The pydantic response model `ThreatInfo` of `api.py`.  Its
`time_to_collision` field is declared `float`, hence holds whatever python
float the coordinator produced — including `float('inf')`; there is no
optional/null alternative in the model. -/
structure ThreatInfo where
  other_vehicle_id : ℕ
  threat_level : ℕ
  time_to_collision : PyFloat
  distance : ℝ
  timestamp : ℝ

/-- The `GET /vehicles/{id}/threats` route handler (api.py lines 165-179):
404 (`none`) for an unregistered id, otherwise the threat records mapped
field-by-field into `ThreatInfo`; the TTC is passed through unchanged. -/
noncomputable def apiGetThreats (s : V2VNetworkEnhanced) (vehicle_id : ℕ) :
    Option (List ThreatInfo) :=
  if s.vehicles.contains vehicle_id then
    some ((s.get_threats vehicle_id).map (fun t =>
      { other_vehicle_id := t.other_vehicle_id
        threat_level := t.level
        time_to_collision := t.ttc
        distance := t.distance
        timestamp := t.timestamp }))
  else none

/-- The condition under which `_discover_neighbors` appends `x` to the
neighbor list of `v1` (whose BSM is `b1`): a distinct id whose BSM exists
and whose freshly computed planar distance is within range. -/
def nbCond (st : V2VNetworkEnhanced) (v1 : ℕ) (b1 : BSMCore) (x : ℕ) : Prop :=
  v1 ≠ x ∧ ∃ b2, pyGet? st.bsm_messages x = some b2 ∧ planarDistance b1 b2 ≤ st.max_range

/-- The recipient filter of `enable_bidirectional_sharing`: a neighbor id
passes iff its cached distance exists, is nonzero (python truthiness) and
is at most `SHARE_SENSOR_DATA_DISTANCE`. -/
noncomputable def shareCond (st : V2VNetworkEnhanced) (vid n : ℕ) : Bool :=
  match st.get_distance vid n with
  | none => false
  | some d => decide (d ≠ 0 ∧ d ≤ SHARE_SENSOR_DATA_DISTANCE)

/-! ### Concrete scenarios used by witnesses and counterexamples -/

/-- A stationary actor standing at planar position `(x, y)`. -/
noncomputable def kinAt (x y : ℝ) : KinematicSample :=
  { loc_x := x, loc_y := y, loc_z := 0, yaw := 0, vel_x := 0, vel_y := 0, vel_z := 0,
    throttle := 0, brake := 0, steer := 0, reverse := false,
    extent_x := 1, extent_y := 1, extent_z := 1 }

/-- Actor data: agent 1 at the origin, every other agent at `(30, 40)`
(planar distance 50). -/
noncomputable def adA : ℕ → KinematicSample := fun vid =>
  if vid = 1 then kinAt 0 0 else kinAt 30 40

/-- Actor data for a later cycle: agent 1 still at the origin, every other
agent moved to `(3, 4)` (planar distance 5). -/
noncomputable def adB : ℕ → KinematicSample := fun vid =>
  if vid = 1 then kinAt 0 0 else kinAt 3 4

/-- Actor data: every agent at the origin (pairwise distance 0). -/
noncomputable def adC : ℕ → KinematicSample := fun _ => kinAt 0 0

/-- Actor data: every agent at `(5, 0)`. -/
noncomputable def adD : ℕ → KinematicSample := fun _ => kinAt 5 0

/-- A fresh network with agents 1 and 2 registered. -/
noncomputable def s0 : V2VNetworkEnhanced :=
  ((V2VNetworkEnhanced.init 150 2 true).register 1).register 2

/-- A fresh network with only agent 1 registered. -/
noncomputable def s1 : V2VNetworkEnhanced := (V2VNetworkEnhanced.init 150 2 true).register 1

/-- State after one update cycle of `s0` at `t = 1`: agents at `(0,0)` and
`(30,40)`, both stationary. -/
noncomputable def stateA : V2VNetworkEnhanced :=
  (s0.update (some ⟨[1, 2]⟩) true 1 none adA).2

/-- State after a second update cycle of `stateA` at `t = 2`, with agent 2
moved to `(3, 4)`. -/
noncomputable def stateA2 : V2VNetworkEnhanced :=
  (stateA.update (some ⟨[1, 2]⟩) true 2 none adB).2

/-- State after one update cycle of `s0` with both agents at the origin. -/
noncomputable def stateC : V2VNetworkEnhanced :=
  (s0.update (some ⟨[1, 2]⟩) true 1 none adC).2

/-- State after one update cycle of `s1` at `t = 1` with agent 1 at the
origin. -/
noncomputable def stateD : V2VNetworkEnhanced :=
  (s1.update (some ⟨[1]⟩) true 1 none adA).2

/-! ### Dictionary lemmas -/

@[simp]
theorem pyGet?_nil [BEq α] (k : α) : pyGet? ([] : List (α × β)) k = none := rfl

@[simp]
theorem pyGet?_cons [BEq α] (p : α × β) (rest : List (α × β)) (k : α) :
    pyGet? (p :: rest) k = if p.1 == k then some p.2 else pyGet? rest k := rfl

@[simp]
theorem pyGet?_pySet_self [BEq α] [LawfulBEq α] (d : List (α × β)) (k : α) (v : β) :
    pyGet? (pySet d k v) k = some v := by
  induction d with
  | nil => simp [pySet]
  | cons p rest ih =>
    by_cases h : p.1 == k
    · simp [pySet, h]
    · simp [pySet, h, ih]

theorem pyGet?_pySet_ne [BEq α] [LawfulBEq α] (d : List (α × β)) (k k' : α) (v : β)
    (h : k' ≠ k) : pyGet? (pySet d k v) k' = pyGet? d k' := by
  have h2 : k ≠ k' := Ne.symm h
  induction d with
  | nil => simp [pySet, pyGet?, beq_iff_eq, h2]
  | cons p rest ih =>
    by_cases hp : p.1 == k
    · have hp1 : p.1 = k := by simpa [beq_iff_eq] using hp
      simp [pySet, hp, pyGet?, hp1, beq_iff_eq, h2]
    · simp only [pySet, hp, if_neg]
      simp [pyGet?, ih]

theorem pyGet?_pyPop_ne [BEq α] [LawfulBEq α] (d : List (α × β)) (k k' : α)
    (h : k' ≠ k) : pyGet? (pyPop d k) k' = pyGet? d k' := by
  have h2 : k ≠ k' := Ne.symm h
  induction d with
  | nil => simp [pyPop]
  | cons p rest ih =>
    by_cases hp : p.1 == k
    · have hp1 : p.1 = k := by simpa [beq_iff_eq] using hp
      have hne : ¬ (p.1 == k') := by simp [hp1, beq_iff_eq, h2]
      simp [pyPop, hp, pyGet?, hne] at ih ⊢
      exact ih
    · simp [pyPop, hp, pyGet?] at ih ⊢
      rw [ih]

@[simp]
theorem pyGet?_pyPop_self [BEq α] [LawfulBEq α] (d : List (α × β)) (k : α) :
    pyGet? (pyPop d k) k = none := by
  induction d with
  | nil => simp [pyPop]
  | cons p rest ih =>
    by_cases hp : p.1 == k
    · simpa [pyPop, hp] using ih
    · simpa [pyPop, hp, pyGet?] using ih

theorem sqrt_of_sq (a x : ℝ) (ha : 0 ≤ a) (h : x = a ^ 2) : Real.sqrt x = a := by
  rw [h, Real.sqrt_sq ha]

theorem sqrt2500 : Real.sqrt (2500 : ℝ) = 50 := by
  apply sqrt_of_sq <;> norm_num

theorem sqrt25 : Real.sqrt (25 : ℝ) = 5 := by
  apply sqrt_of_sq <;> norm_num

/-! ### Helper lemmas: which fields each update phase can touch -/

theorem scanPair_shape (st : V2VNetworkEnhanced) (v1 : ℕ) (b1 : BSMCore) (v2 : ℕ) :
    ∃ nb ds, scanPair st v1 b1 v2 = { st with neighbors := nb, distances := ds } := by
  unfold scanPair
  by_cases h : v1 = v2
  · exact ⟨st.neighbors, st.distances, by simp [h]⟩
  · rw [if_neg h]
    cases hB : pyGet? st.bsm_messages v2 with
    | none => exact ⟨st.neighbors, st.distances, by simp⟩
    | some b2 => exact ⟨_, _, rfl⟩

theorem scanInner_shape (v1 : ℕ) (b1 : BSMCore) (l : List ℕ) :
    ∀ st : V2VNetworkEnhanced, ∃ nb ds,
      scanInner v1 b1 st l = { st with neighbors := nb, distances := ds } := by
  induction l with
  | nil => intro st; exact ⟨st.neighbors, st.distances, by simp [scanInner]⟩
  | cons v rest ih =>
    intro st
    rw [scanInner]
    obtain ⟨nb1, ds1, h1⟩ := scanPair_shape st v1 b1 v
    obtain ⟨nb2, ds2, h2⟩ := ih (scanPair st v1 b1 v)
    exact ⟨nb2, ds2, by rw [h2, h1]⟩

theorem scanOuter_shape (ids : List ℕ) (l : List ℕ) :
    ∀ st : V2VNetworkEnhanced, ∃ nb ds,
      scanOuter ids st l = { st with neighbors := nb, distances := ds } := by
  induction l with
  | nil => intro st; exact ⟨st.neighbors, st.distances, by simp [scanOuter]⟩
  | cons v rest ih =>
    intro st
    rw [scanOuter]
    cases hB : pyGet? st.bsm_messages v with
    | none =>
      obtain ⟨nb2, ds2, h2⟩ := ih st
      exact ⟨nb2, ds2, h2⟩
    | some b1 =>
      obtain ⟨nb1, ds1, h1⟩ := scanInner_shape v b1 ids st
      obtain ⟨nb2, ds2, h2⟩ := ih (scanInner v b1 st ids)
      exact ⟨nb2, ds2, by rw [h2, h1]⟩

theorem resetNeighbors_shape (l : List ℕ) :
    ∀ st : V2VNetworkEnhanced, ∃ nb,
      resetNeighbors st l = { st with neighbors := nb } := by
  induction l with
  | nil => intro st; exact ⟨st.neighbors, by simp [resetNeighbors]⟩
  | cons v rest ih =>
    intro st
    rw [resetNeighbors]
    obtain ⟨nb2, h2⟩ := ih { st with neighbors := pySet st.neighbors v [] }
    exact ⟨nb2, by rw [h2]⟩

theorem discover_shape (s : V2VNetworkEnhanced) :
    ∃ nb ds, s.discover_neighbors = { s with neighbors := nb, distances := ds } := by
  unfold V2VNetworkEnhanced.discover_neighbors
  obtain ⟨nb1, h1⟩ := resetNeighbors_shape s.vehicles s
  obtain ⟨nb2, ds2, h2⟩ := scanOuter_shape s.vehicles s.vehicles (resetNeighbors s s.vehicles)
  exact ⟨nb2, ds2, by rw [h2, h1]⟩

theorem refreshLoop_shape (ad : ℕ → KinematicSample) (now dt : ℝ) (l : List ℕ) :
    ∀ st : V2VNetworkEnhanced, ∃ bm mc ps,
      refreshLoop ad now dt st l =
        { st with bsm_messages := bm, msg_counters := mc, prev_speeds := ps } := by
  induction l with
  | nil =>
    intro st
    exact ⟨st.bsm_messages, st.msg_counters, st.prev_speeds, by simp [refreshLoop]⟩
  | cons v rest ih =>
    intro st
    rw [refreshLoop]
    obtain ⟨bm, mc, ps, h⟩ := ih _
    exact ⟨bm, mc, ps, by rw [h]⟩

theorem assessPair_shape (now : ℝ) (st : V2VNetworkEnhanced) (v1 : ℕ) (b1 : BSMCore)
    (v2 : ℕ) : ∃ th, assessPair now st v1 b1 v2 = { st with threats := th } := by
  unfold assessPair
  cases hB : pyGet? st.bsm_messages v2 with
  | none => exact ⟨st.threats, by simp⟩
  | some b2 => exact ⟨_, rfl⟩

theorem assessInner_shape (now : ℝ) (v1 : ℕ) (b1 : BSMCore) (l : List ℕ) :
    ∀ st : V2VNetworkEnhanced, ∃ th,
      assessInner now v1 b1 st l = { st with threats := th } := by
  induction l with
  | nil => intro st; exact ⟨st.threats, by simp [assessInner]⟩
  | cons v rest ih =>
    intro st
    rw [assessInner]
    obtain ⟨th1, h1⟩ := assessPair_shape now st v1 b1 v
    obtain ⟨th2, h2⟩ := ih (assessPair now st v1 b1 v)
    exact ⟨th2, by rw [h2, h1]⟩

theorem assessOuter_shape (now : ℝ) (l : List (ℕ × List ℕ)) :
    ∀ st : V2VNetworkEnhanced, ∃ th,
      assessOuter now st l = { st with threats := th } := by
  induction l with
  | nil => intro st; exact ⟨st.threats, by simp [assessOuter]⟩
  | cons p rest ih =>
    intro st
    rw [assessOuter]
    cases hB : pyGet? st.bsm_messages p.1 with
    | none =>
      obtain ⟨th2, h2⟩ := ih st
      exact ⟨th2, h2⟩
    | some b1 =>
      obtain ⟨th1, h1⟩ := assessInner_shape now p.1 b1 p.2 st
      obtain ⟨th2, h2⟩ := ih (assessInner now p.1 b1 st p.2)
      exact ⟨th2, by rw [h2, h1]⟩

theorem assess_shape (s : V2VNetworkEnhanced) (now : ℝ) :
    ∃ th, s.assess_threats now = { s with threats := th } := by
  unfold V2VNetworkEnhanced.assess_threats
  obtain ⟨th, h⟩ := assessOuter_shape now s.neighbors { s with threats := [] }
  exact ⟨th, by rw [h]⟩

theorem update_stats_shape (s : V2VNetworkEnhanced) :
    ∃ st, s.update_stats = { s with stats := st } := ⟨_, rfl⟩


theorem refreshLoop_get_not_mem (ad : ℕ → KinematicSample) (now dt : ℝ) (l : List ℕ) :
    ∀ (st : V2VNetworkEnhanced) (vid : ℕ), vid ∉ l →
      pyGet? (refreshLoop ad now dt st l).bsm_messages vid = pyGet? st.bsm_messages vid ∧
      pyGet? (refreshLoop ad now dt st l).msg_counters vid = pyGet? st.msg_counters vid ∧
      pyGet? (refreshLoop ad now dt st l).prev_speeds vid = pyGet? st.prev_speeds vid := by
  induction l with
  | nil => intro st vid _; simp [refreshLoop]
  | cons v rest ih =>
    intro st vid h
    have hv : vid ≠ v := fun he => h (he ▸ List.mem_cons_self v rest)
    have hrest : vid ∉ rest := fun hm => h (List.mem_cons_of_mem _ hm)
    rw [refreshLoop]
    obtain ⟨h1, h2, h3⟩ := ih _ vid hrest
    refine ⟨?_, ?_, ?_⟩
    · rw [h1]; exact pyGet?_pySet_ne _ _ _ _ hv
    · rw [h2]; exact pyGet?_pySet_ne _ _ _ _ hv
    · rw [h3]; exact pyGet?_pySet_ne _ _ _ _ hv

theorem refreshLoop_get_mem (ad : ℕ → KinematicSample) (now dt : ℝ) (l : List ℕ) :
    ∀ (st : V2VNetworkEnhanced) (vid : ℕ), vid ∈ l → l.Nodup →
      pyGet? (refreshLoop ad now dt st l).bsm_messages vid =
        some (create_bsm_from_carla (ad vid) vid ((pyGet? st.msg_counters vid).getD 0)
          ((pyGet? st.prev_speeds vid).getD 0) dt now) ∧
      pyGet? (refreshLoop ad now dt st l).msg_counters vid =
        some (((pyGet? st.msg_counters vid).getD 0 + 1) % 128) := by
  induction l with
  | nil => intro st vid h; cases h
  | cons v rest ih =>
    intro st vid hmem hnd
    rw [refreshLoop]
    rcases List.mem_cons.mp hmem with he | hm
    · subst he
      have hrest : vid ∉ rest := (List.nodup_cons.mp hnd).1
      obtain ⟨h1, h2, _⟩ := refreshLoop_get_not_mem ad now dt rest _ vid hrest
      constructor
      · rw [h1]; exact pyGet?_pySet_self _ _ _
      · rw [h2]; exact pyGet?_pySet_self _ _ _
    · have hv : vid ≠ v := fun he =>
        (List.nodup_cons.mp hnd).1 (he ▸ hm)
      obtain ⟨g1, g2⟩ := ih _ vid hm (List.nodup_cons.mp hnd).2
      have e1 : pyGet? (pySet st.msg_counters v
          (((pyGet? st.msg_counters v).getD 0 + 1) % 128)) vid =
          pyGet? st.msg_counters vid := pyGet?_pySet_ne _ _ _ _ hv
      have e2 : pyGet? (pySet st.prev_speeds v
          (create_bsm_from_carla (ad v) v ((pyGet? st.msg_counters v).getD 0)
            ((pyGet? st.prev_speeds v).getD 0) dt now).speed) vid =
          pyGet? st.prev_speeds vid := pyGet?_pySet_ne _ _ _ _ hv
      constructor
      · rw [g1, e1, e2]
      · rw [g2, e1]

theorem update_performed_eq (s : V2VNetworkEnhanced) (snapshot : Option Snapshot)
    (force : Bool) (t : ℝ) (ws : Option Snapshot) (ad : ℕ → KinematicSample)
    (h : (s.update snapshot force t ws ad).1 = true) :
    (s.update snapshot force t ws ad).2 =
      (((refreshLoop ad t (t - s.last_update_time) { s with last_update_time := t }
          s.vehicles).discover_neighbors).assess_threats t).update_stats := by
  unfold V2VNetworkEnhanced.update at h ⊢
  by_cases hg : ¬ force = true ∧ ¬ s.should_update t = true
  · rw [if_pos hg] at h
    exact absurd h (by simp)
  · rw [if_neg hg] at h ⊢
    rcases snapshot with _ | sn
    · rcases ws with _ | sn2
      · exact absurd h (by simp)
      · rfl
    · rfl


theorem nbCond_congr (st st' : V2VNetworkEnhanced) (v1 : ℕ) (b1 : BSMCore) (x : ℕ)
    (h1 : st'.bsm_messages = st.bsm_messages) (h2 : st'.max_range = st.max_range) :
    nbCond st' v1 b1 x ↔ nbCond st v1 b1 x := by
  unfold nbCond
  rw [h1, h2]

theorem scanPair_neighbors_ne (st : V2VNetworkEnhanced) (v1 : ℕ) (b1 : BSMCore)
    (v2 k : ℕ) (hk : k ≠ v1) :
    pyGet? (scanPair st v1 b1 v2).neighbors k = pyGet? st.neighbors k := by
  unfold scanPair
  by_cases h : v1 = v2
  · simp [h]
  · rw [if_neg h]
    cases hB : pyGet? st.bsm_messages v2 with
    | none => rfl
    | some b2 =>
      dsimp only
      by_cases hr : Real.sqrt ((b2.latitude - b1.latitude) ^ 2
          + (b2.longitude - b1.longitude) ^ 2) ≤ st.max_range
      · simp only [hr, if_true]
        exact pyGet?_pySet_ne _ _ _ _ hk
      · simp only [hr, if_false]

theorem scanPair_neighbors_self (st : V2VNetworkEnhanced) (v1 : ℕ) (b1 : BSMCore)
    (v2 : ℕ) (cur : List ℕ) (hcur : pyGet? st.neighbors v1 = some cur) :
    ∃ cur2, pyGet? (scanPair st v1 b1 v2).neighbors v1 = some cur2 ∧
      ∀ x, x ∈ cur2 ↔ (x ∈ cur ∨ (x = v2 ∧ nbCond st v1 b1 v2)) := by
  unfold scanPair
  by_cases h : v1 = v2
  · subst h
    refine ⟨cur, by simp [hcur], fun x => ?_⟩
    have hnc : ¬ nbCond st v1 b1 v1 := fun hc => hc.1 rfl
    tauto
  · rw [if_neg h]
    cases hB : pyGet? st.bsm_messages v2 with
    | none =>
      refine ⟨cur, hcur, fun x => ?_⟩
      have hnc : ¬ nbCond st v1 b1 v2 := by
        rintro ⟨-, b2, hb2, -⟩
        rw [hB] at hb2
        cases hb2
      tauto
    | some b2 =>
      dsimp only
      by_cases hr : Real.sqrt ((b2.latitude - b1.latitude) ^ 2
          + (b2.longitude - b1.longitude) ^ 2) ≤ st.max_range
      · refine ⟨cur ++ [v2], ?_, fun x => ?_⟩
        · simp only [hr, if_true]
          rw [pyGet?_pySet_self, hcur]
          rfl
        · have hc : nbCond st v1 b1 v2 := ⟨h, b2, hB, hr⟩
          simp only [List.mem_append, List.mem_singleton]
          tauto
      · refine ⟨cur, by simp only [hr, if_false]; exact hcur, fun x => ?_⟩
        have hnc : ¬ nbCond st v1 b1 v2 := by
          rintro ⟨-, b2a, hb2, hra⟩
          rw [hB] at hb2
          cases hb2
          exact hr hra
        tauto

theorem scanInner_neighbors_ne (v1 : ℕ) (b1 : BSMCore) (l : List ℕ) :
    ∀ (st : V2VNetworkEnhanced) (k : ℕ), k ≠ v1 →
      pyGet? (scanInner v1 b1 st l).neighbors k = pyGet? st.neighbors k := by
  induction l with
  | nil => intro st k _; simp [scanInner]
  | cons v rest ih =>
    intro st k hk
    rw [scanInner]
    rw [ih _ k hk, scanPair_neighbors_ne _ _ _ _ _ hk]

theorem scanInner_mem (v1 : ℕ) (b1 : BSMCore) (l : List ℕ) :
    ∀ (st : V2VNetworkEnhanced) (cur : List ℕ), pyGet? st.neighbors v1 = some cur →
      ∃ cur2, pyGet? (scanInner v1 b1 st l).neighbors v1 = some cur2 ∧
        ∀ x, x ∈ cur2 ↔ (x ∈ cur ∨ (x ∈ l ∧ nbCond st v1 b1 x)) := by
  induction l with
  | nil =>
    intro st cur hcur
    exact ⟨cur, by simpa [scanInner] using hcur, fun x => by simp⟩
  | cons v rest ih =>
    intro st cur hcur
    rw [scanInner]
    obtain ⟨cur1, hcur1, hmem1⟩ := scanPair_neighbors_self st v1 b1 v cur hcur
    obtain ⟨cur2, hcur2, hmem2⟩ := ih _ cur1 hcur1
    obtain ⟨nb, ds, hshape⟩ := scanPair_shape st v1 b1 v
    refine ⟨cur2, hcur2, fun x => ?_⟩
    rw [hmem2 x, hmem1 x]
    have hcong : nbCond (scanPair st v1 b1 v) v1 b1 x ↔ nbCond st v1 b1 x :=
      nbCond_congr _ _ _ _ _ (by rw [hshape]) (by rw [hshape])
    rw [hcong]
    constructor
    · rintro ((hx | ⟨rfl, hc⟩) | ⟨hxl, hc⟩)
      · exact Or.inl hx
      · exact Or.inr ⟨List.mem_cons_self _ _, hc⟩
      · exact Or.inr ⟨List.mem_cons_of_mem _ hxl, hc⟩
    · rintro (hx | ⟨hxm, hc⟩)
      · exact Or.inl (Or.inl hx)
      · rcases List.mem_cons.mp hxm with rfl | hxr
        · exact Or.inl (Or.inr ⟨rfl, hc⟩)
        · exact Or.inr ⟨hxr, hc⟩

theorem scanOuter_neighbors_ne (ids : List ℕ) (l : List ℕ) :
    ∀ (st : V2VNetworkEnhanced) (k : ℕ), k ∉ l →
      pyGet? (scanOuter ids st l).neighbors k = pyGet? st.neighbors k := by
  induction l with
  | nil => intro st k _; simp [scanOuter]
  | cons v rest ih =>
    intro st k hk
    have hkv : k ≠ v := fun he => hk (he ▸ List.mem_cons_self v rest)
    have hkr : k ∉ rest := fun hm => hk (List.mem_cons_of_mem _ hm)
    rw [scanOuter]
    cases hB : pyGet? st.bsm_messages v with
    | none => exact ih st k hkr
    | some b1 => rw [ih _ k hkr, scanInner_neighbors_ne _ _ _ _ k hkv]

theorem scanOuter_mem (ids : List ℕ) (l : List ℕ) :
    ∀ (st : V2VNetworkEnhanced) (a : ℕ), a ∈ l → l.Nodup →
      pyGet? st.neighbors a = some [] →
      ∃ cur, pyGet? (scanOuter ids st l).neighbors a = some cur ∧
        ∀ x, x ∈ cur ↔ ∃ b1, pyGet? st.bsm_messages a = some b1 ∧
          (x ∈ ids ∧ nbCond st a b1 x) := by
  induction l with
  | nil => intro st a h; cases h
  | cons v rest ih =>
    intro st a hmem hnd hcur
    rw [scanOuter]
    rcases List.mem_cons.mp hmem with he | hm
    · subst he
      have hrest : a ∉ rest := (List.nodup_cons.mp hnd).1
      cases hB : pyGet? st.bsm_messages a with
      | none =>
        refine ⟨[], by rw [scanOuter_neighbors_ne ids rest st a hrest]; exact hcur,
          fun x => ?_⟩
        simp only [List.not_mem_nil, false_iff]
        rintro ⟨b1, hb1, -⟩
        exact Option.noConfusion hb1
      | some b1 =>
        obtain ⟨cur2, hcur2, hmem2⟩ := scanInner_mem a b1 ids st [] hcur
        refine ⟨cur2, ?_, fun x => ?_⟩
        · rw [scanOuter_neighbors_ne ids rest _ a hrest]
          exact hcur2
        · rw [hmem2 x]
          simp only [List.not_mem_nil, false_or]
          constructor
          · rintro ⟨hxi, hc⟩; exact ⟨b1, rfl, hxi, hc⟩
          · rintro ⟨b1a, hb1a, hxi, hc⟩
            cases hb1a
            exact ⟨hxi, hc⟩
    · have hav : a ≠ v := fun he =>
        (List.nodup_cons.mp hnd).1 (he ▸ hm)
      have hndr := (List.nodup_cons.mp hnd).2
      cases hB : pyGet? st.bsm_messages v with
      | none => exact ih st a hm hndr hcur
      | some b1 =>
        have hpres : pyGet? (scanInner v b1 st ids).neighbors a = some [] := by
          rw [scanInner_neighbors_ne _ _ _ _ a hav]; exact hcur
        obtain ⟨cur2, hcur2, hmem2⟩ := ih (scanInner v b1 st ids) a hm hndr hpres
        obtain ⟨nb, ds, hshape⟩ := scanInner_shape v b1 ids st
        have e1 : (scanInner v b1 st ids).bsm_messages = st.bsm_messages := by rw [hshape]
        have e2 : (scanInner v b1 st ids).max_range = st.max_range := by rw [hshape]
        refine ⟨cur2, hcur2, fun x => ?_⟩
        rw [hmem2 x, e1]
        constructor
        · rintro ⟨b1a, hb1a, hxi, hc⟩
          exact ⟨b1a, hb1a, hxi, (nbCond_congr st _ a b1a x e1 e2).mp hc⟩
        · rintro ⟨b1a, hb1a, hxi, hc⟩
          exact ⟨b1a, hb1a, hxi, (nbCond_congr st _ a b1a x e1 e2).mpr hc⟩

theorem resetNeighbors_not_mem (l : List ℕ) :
    ∀ (st : V2VNetworkEnhanced) (k : ℕ), k ∉ l →
      pyGet? (resetNeighbors st l).neighbors k = pyGet? st.neighbors k := by
  induction l with
  | nil => intro st k _; simp [resetNeighbors]
  | cons v rest ih =>
    intro st k hk
    have hkv : k ≠ v := fun he => hk (he ▸ List.mem_cons_self v rest)
    have hkr : k ∉ rest := fun hm => hk (List.mem_cons_of_mem _ hm)
    rw [resetNeighbors, ih _ k hkr]
    exact pyGet?_pySet_ne _ _ _ _ hkv

theorem resetNeighbors_mem (l : List ℕ) :
    ∀ (st : V2VNetworkEnhanced) (a : ℕ), a ∈ l →
      pyGet? (resetNeighbors st l).neighbors a = some [] := by
  induction l with
  | nil => intro st a h; cases h
  | cons v rest ih =>
    intro st a hmem
    rw [resetNeighbors]
    by_cases hm : a ∈ rest
    · exact ih _ a hm
    · have he : a = v := by
        rcases List.mem_cons.mp hmem with he | hm2
        · exact he
        · exact absurd hm2 hm
      subst he
      rw [resetNeighbors_not_mem rest _ a hm]
      exact pyGet?_pySet_self _ _ _

theorem discover_mem (s : V2VNetworkEnhanced) (a : ℕ) (ha : a ∈ s.vehicles)
    (hnd : s.vehicles.Nodup) :
    ∃ cur, pyGet? s.discover_neighbors.neighbors a = some cur ∧
      ∀ x, x ∈ cur ↔ ∃ b1, pyGet? s.bsm_messages a = some b1 ∧
        (x ∈ s.vehicles ∧ nbCond s a b1 x) := by
  unfold V2VNetworkEnhanced.discover_neighbors
  have hreset : pyGet? (resetNeighbors s s.vehicles).neighbors a = some [] :=
    resetNeighbors_mem s.vehicles s a ha
  obtain ⟨nbr, hrshape⟩ := resetNeighbors_shape s.vehicles s
  obtain ⟨cur, hcur, hmem⟩ :=
    scanOuter_mem s.vehicles s.vehicles (resetNeighbors s s.vehicles) a ha hnd hreset
  refine ⟨cur, hcur, fun x => ?_⟩
  rw [hmem x]
  rw [hrshape]
  constructor
  · rintro ⟨b1, hb1, hxi, hc⟩
    refine ⟨b1, hb1, hxi, ?_⟩
    exact (nbCond_congr s { s with neighbors := nbr } a b1 x rfl rfl).mp hc
  · rintro ⟨b1, hb1, hxi, hc⟩
    refine ⟨b1, hb1, hxi, ?_⟩
    exact (nbCond_congr s { s with neighbors := nbr } a b1 x rfl rfl).mpr hc

theorem planarDistance_symm (a b : BSMCore) : planarDistance a b = planarDistance b a := by
  unfold planarDistance
  ring_nf

theorem scanPair_distances_preserved (st : V2VNetworkEnhanced) (v1 : ℕ) (b1 : BSMCore)
    (v2 : ℕ) (a b : ℕ)
    (hab : (pyGet? st.distances (a, b)).isSome)
    (hba : (pyGet? st.distances (b, a)).isSome) :
    pyGet? (scanPair st v1 b1 v2).distances (a, b) = pyGet? st.distances (a, b) ∧
    pyGet? (scanPair st v1 b1 v2).distances (b, a) = pyGet? st.distances (b, a) := by
  unfold scanPair
  by_cases h : v1 = v2
  · simp [h]
  · rw [if_neg h]
    cases hB : pyGet? st.bsm_messages v2 with
    | none => exact ⟨rfl, rfl⟩
    | some b2 =>
      dsimp only
      by_cases hd : (pyGet? st.distances (v2, v1)).isSome
      · simp [hd]
      · simp only [hd, Bool.false_eq_true, if_false]
        have h12ab : (v1, v2) ≠ (a, b) := by
          rintro he
          injection he with e1 e2
          subst e1; subst e2
          exact hd hba
        have h21ab : (v2, v1) ≠ (a, b) := by
          rintro he
          injection he with e1 e2
          subst e1; subst e2
          exact hd hab
        have h12ba : (v1, v2) ≠ (b, a) := by
          rintro he
          injection he with e1 e2
          subst e1; subst e2
          exact hd hab
        have h21ba : (v2, v1) ≠ (b, a) := by
          rintro he
          injection he with e1 e2
          subst e1; subst e2
          exact hd hba
        constructor
        · rw [pyGet?_pySet_ne _ _ _ _ (Ne.symm h21ab),
            pyGet?_pySet_ne _ _ _ _ (Ne.symm h12ab)]
        · rw [pyGet?_pySet_ne _ _ _ _ (Ne.symm h21ba),
            pyGet?_pySet_ne _ _ _ _ (Ne.symm h12ba)]

theorem scanInner_distances_preserved (v1 : ℕ) (b1 : BSMCore) (l : List ℕ) :
    ∀ (st : V2VNetworkEnhanced) (a b : ℕ),
      (pyGet? st.distances (a, b)).isSome → (pyGet? st.distances (b, a)).isSome →
      pyGet? (scanInner v1 b1 st l).distances (a, b) = pyGet? st.distances (a, b) ∧
      pyGet? (scanInner v1 b1 st l).distances (b, a) = pyGet? st.distances (b, a) := by
  induction l with
  | nil => intro st a b _ _; simp [scanInner]
  | cons v rest ih =>
    intro st a b hab hba
    rw [scanInner]
    obtain ⟨e1, e2⟩ := scanPair_distances_preserved st v1 b1 v a b hab hba
    obtain ⟨f1, f2⟩ := ih (scanPair st v1 b1 v) a b (by rw [e1]; exact hab)
      (by rw [e2]; exact hba)
    exact ⟨by rw [f1, e1], by rw [f2, e2]⟩

theorem scanOuter_distances_preserved (ids : List ℕ) (l : List ℕ) :
    ∀ (st : V2VNetworkEnhanced) (a b : ℕ),
      (pyGet? st.distances (a, b)).isSome → (pyGet? st.distances (b, a)).isSome →
      pyGet? (scanOuter ids st l).distances (a, b) = pyGet? st.distances (a, b) ∧
      pyGet? (scanOuter ids st l).distances (b, a) = pyGet? st.distances (b, a) := by
  induction l with
  | nil => intro st a b _ _; simp [scanOuter]
  | cons v rest ih =>
    intro st a b hab hba
    rw [scanOuter]
    cases hB : pyGet? st.bsm_messages v with
    | none => exact ih st a b hab hba
    | some b1 =>
      obtain ⟨e1, e2⟩ := scanInner_distances_preserved v b1 ids st a b hab hba
      obtain ⟨f1, f2⟩ := ih (scanInner v b1 st ids) a b (by rw [e1]; exact hab)
        (by rw [e2]; exact hba)
      exact ⟨by rw [f1, e1], by rw [f2, e2]⟩

theorem discover_distances_preserved (s : V2VNetworkEnhanced) (a b : ℕ)
    (hab : (pyGet? s.distances (a, b)).isSome)
    (hba : (pyGet? s.distances (b, a)).isSome) :
    pyGet? s.discover_neighbors.distances (a, b) = pyGet? s.distances (a, b) ∧
    pyGet? s.discover_neighbors.distances (b, a) = pyGet? s.distances (b, a) := by
  unfold V2VNetworkEnhanced.discover_neighbors
  obtain ⟨nbr, hrshape⟩ := resetNeighbors_shape s.vehicles s
  have hd : (resetNeighbors s s.vehicles).distances = s.distances := by rw [hrshape]
  obtain ⟨e1, e2⟩ := scanOuter_distances_preserved s.vehicles s.vehicles
    (resetNeighbors s s.vehicles) a b (by rw [hd]; exact hab) (by rw [hd]; exact hba)
  rw [hd] at e1 e2
  exact ⟨e1, e2⟩

theorem statsShares_eq (s : V2VNetworkEnhanced) (c1 c2 : ℕ) (h : c1 = c2) :
    ({ s with stats := { s.stats with cooperative_shares := c1 } } : V2VNetworkEnhanced) =
      { s with stats := { s.stats with cooperative_shares := c2 } } := by
  rw [h]

theorem shareLoop_eq (vid : ℕ) (l : List ℕ) :
    ∀ (st : V2VNetworkEnhanced) (acc : List ℕ),
      shareLoop vid st acc l =
        (acc ++ l.filter (fun n => shareCond st vid n),
         { st with stats := { st.stats with cooperative_shares :=
             st.stats.cooperative_shares + (l.filter (fun n => shareCond st vid n)).length } }) := by
  induction l with
  | nil =>
    intro st acc
    simp only [shareLoop, List.filter_nil, List.append_nil, List.length_nil, Nat.add_zero]
  | cons n rest ih =>
    intro st acc
    rw [shareLoop]
    cases hd : st.get_distance vid n with
    | none =>
      have hc : shareCond st vid n = false := by unfold shareCond; rw [hd]
      rw [ih st acc]
      simp [hc]
    | some d =>
      by_cases hp : d ≠ 0 ∧ d ≤ SHARE_SENSOR_DATA_DISTANCE
      · have hc : shareCond st vid n = true := by
          unfold shareCond; rw [hd]; exact decide_eq_true hp
        dsimp only
        rw [if_pos hp]
        rw [ih _ (acc ++ [n])]
        have hsc : (fun m => shareCond { st with stats := { st.stats with cooperative_shares :=
            st.stats.cooperative_shares + 1 } } vid m) = fun m => shareCond st vid m := rfl
        rw [hsc]
        have hfc : List.filter (fun m => shareCond st vid m) (n :: rest) =
            n :: List.filter (fun m => shareCond st vid m) rest := by
          rw [List.filter_cons, if_pos hc]
        rw [hfc]
        rw [Prod.mk.injEq]
        refine ⟨by simp, ?_⟩
        exact statsShares_eq st _ _ (by simp only [List.length_cons]; omega)
      · have hc : shareCond st vid n = false := by
          unfold shareCond; rw [hd]; exact decide_eq_false hp
        dsimp only
        rw [if_neg hp]
        rw [ih st acc]
        simp [hc]


theorem pipeline_msg_counters (s2 : V2VNetworkEnhanced) (t : ℝ) :
    ((s2.discover_neighbors.assess_threats t).update_stats).msg_counters = s2.msg_counters := by
  obtain ⟨nb, ds, hdisc⟩ := discover_shape s2
  obtain ⟨th, hassess⟩ := assess_shape s2.discover_neighbors t
  have h1 : ((s2.discover_neighbors.assess_threats t).update_stats).msg_counters
      = (s2.discover_neighbors.assess_threats t).msg_counters := rfl
  rw [h1, hassess, hdisc]

theorem pipeline_bsm_messages (s2 : V2VNetworkEnhanced) (t : ℝ) :
    ((s2.discover_neighbors.assess_threats t).update_stats).bsm_messages = s2.bsm_messages := by
  obtain ⟨nb, ds, hdisc⟩ := discover_shape s2
  obtain ⟨th, hassess⟩ := assess_shape s2.discover_neighbors t
  have h1 : ((s2.discover_neighbors.assess_threats t).update_stats).bsm_messages
      = (s2.discover_neighbors.assess_threats t).bsm_messages := rfl
  rw [h1, hassess, hdisc]

theorem pipeline_neighbors (s2 : V2VNetworkEnhanced) (t : ℝ) :
    ((s2.discover_neighbors.assess_threats t).update_stats).neighbors =
      s2.discover_neighbors.neighbors := by
  obtain ⟨th, hassess⟩ := assess_shape s2.discover_neighbors t
  have h1 : ((s2.discover_neighbors.assess_threats t).update_stats).neighbors
      = (s2.discover_neighbors.assess_threats t).neighbors := rfl
  rw [h1, hassess]

theorem pipeline_distances (s2 : V2VNetworkEnhanced) (t : ℝ) :
    ((s2.discover_neighbors.assess_threats t).update_stats).distances =
      s2.discover_neighbors.distances := by
  obtain ⟨th, hassess⟩ := assess_shape s2.discover_neighbors t
  have h1 : ((s2.discover_neighbors.assess_threats t).update_stats).distances
      = (s2.discover_neighbors.assess_threats t).distances := rfl
  rw [h1, hassess]

theorem refreshLoop_vehicles_eq (ad : ℕ → KinematicSample) (now dt : ℝ)
    (st : V2VNetworkEnhanced) (l : List ℕ) :
    (refreshLoop ad now dt st l).vehicles = st.vehicles := by
  obtain ⟨bm, mc, ps, h⟩ := refreshLoop_shape ad now dt l st
  rw [h]

theorem refreshLoop_distances_eq (ad : ℕ → KinematicSample) (now dt : ℝ)
    (st : V2VNetworkEnhanced) (l : List ℕ) :
    (refreshLoop ad now dt st l).distances = st.distances := by
  obtain ⟨bm, mc, ps, h⟩ := refreshLoop_shape ad now dt l st
  rw [h]

theorem refreshLoop_max_range_eq (ad : ℕ → KinematicSample) (now dt : ℝ)
    (st : V2VNetworkEnhanced) (l : List ℕ) :
    (refreshLoop ad now dt st l).max_range = st.max_range := by
  obtain ⟨bm, mc, ps, h⟩ := refreshLoop_shape ad now dt l st
  rw [h]

/-- A failed `update` call changes at most the last-update timestamp. -/
theorem update_not_performed_shape (s : V2VNetworkEnhanced) (snapshot : Option Snapshot)
    (force : Bool) (t : ℝ) (ws : Option Snapshot) (ad : ℕ → KinematicSample)
    (h : (s.update snapshot force t ws ad).1 = false) :
    (s.update snapshot force t ws ad).2 = s ∨
    (s.update snapshot force t ws ad).2 = { s with last_update_time := t } := by
  unfold V2VNetworkEnhanced.update at h ⊢
  by_cases hg : ¬ force = true ∧ ¬ s.should_update t = true
  · rw [if_pos hg] at h ⊢
    exact Or.inl rfl
  · rw [if_neg hg] at h ⊢
    rcases snapshot with _ | sn
    · rcases ws with _ | sn2
      · exact Or.inr rfl
      · exact absurd h (by simp)
    · exact absurd h (by simp)

/-- A rate-gated (`force = false`, interval not yet elapsed) `update` is a
strict no-op. -/
theorem update_gate_noop (s : V2VNetworkEnhanced) (snapshot : Option Snapshot)
    (t : ℝ) (ws : Option Snapshot) (ad : ℕ → KinematicSample)
    (h : t - s.last_update_time < s.update_interval) :
    s.update snapshot false t ws ad = (false, s) := by
  unfold V2VNetworkEnhanced.update
  rw [if_pos]
  constructor
  · simp
  · unfold V2VNetworkEnhanced.should_update
    simp only [decide_eq_true_eq]
    exact not_le.mpr h

/-! ### Claims -/

/-- C2: `calculate_threat_level` returns `ttc = distance / relativeSpeed` when
`relativeSpeed > 0.1` and `+inf` otherwise, and returns the threat level of the
first matching rule in the fixed order `distance > 100 → 0`, `ttc > 10 → 1`,
`ttc > 5 → 2`, `ttc > 2 → 3`, else 4; the returned distance is the planar
Euclidean distance; it is a total (pure, non-failing) Lean function. -/
theorem calculate_threat_level_spec (ego other : BSMCore) :
    calculate_threat_level ego other =
      (threatLevelRule (planarDistance ego other)
          (ttcRule (planarDistance ego other) (relativeSpeed ego other)),
        ttcRule (planarDistance ego other) (relativeSpeed ego other),
        planarDistance ego other) := rfl

/-- C4: if `update` is called with `force = false` and the elapsed time since
the last update is less than `1 / updateRateHz`, it returns `false` and
performs no state change: the BSM set, message counters, neighbor lists,
distances, threats and statistics are exactly as before the call. -/
theorem update_rate_gated_noop (s : V2VNetworkEnhanced) (snapshot : Option Snapshot)
    (currentTime : ℝ) (worldSnap : Option Snapshot) (actorData : ℕ → KinematicSample)
    (hint : s.update_interval = 1 / s.update_rate_hz)
    (hlt : currentTime - s.last_update_time < 1 / s.update_rate_hz) :
    s.update snapshot false currentTime worldSnap actorData = (false, s) :=
  update_gate_noop s snapshot currentTime worldSnap actorData (by rw [hint]; exact hlt)

theorem update_rate_gated_noop_witness :
    (V2VNetworkEnhanced.init 150 2 true).update_interval =
        1 / (V2VNetworkEnhanced.init 150 2 true).update_rate_hz ∧
      (0.1 : ℝ) - (V2VNetworkEnhanced.init 150 2 true).last_update_time <
        1 / (V2VNetworkEnhanced.init 150 2 true).update_rate_hz ∧
      (V2VNetworkEnhanced.init 150 2 true).update none false 0.1 none (fun _ => kinAt 0 0) =
        (false, V2VNetworkEnhanced.init 150 2 true) :=
  ⟨rfl, by norm_num [V2VNetworkEnhanced.init],
    update_rate_gated_noop _ none 0.1 none _ rfl (by norm_num [V2VNetworkEnhanced.init])⟩

/-- C10: if `update` passes the rate gate but no snapshot is available (none
passed in and no world configured), it returns `false` without refreshing any
BSM, yet it has already advanced the last-update timestamp; hence a further
call within `1 / updateRateHz` of the failed call is rate-gated and also
returns `false`, even though no cycle completed. -/
theorem update_no_snapshot_advances_clock (s : V2VNetworkEnhanced) (force : Bool)
    (t : ℝ) (ad : ℕ → KinematicSample)
    (hgate : s.update_interval ≤ t - s.last_update_time) :
    s.update none force t none ad = (false, { s with last_update_time := t }) ∧
    ∀ (snapshot2 ws2 : Option Snapshot) (t2 : ℝ) (ad2 : ℕ → KinematicSample),
      t2 - t < s.update_interval →
      ({ s with last_update_time := t } : V2VNetworkEnhanced).update snapshot2 false t2 ws2 ad2 =
        (false, { s with last_update_time := t }) := by
  constructor
  · unfold V2VNetworkEnhanced.update
    have hg : ¬ (¬ force = true ∧ ¬ s.should_update t = true) := by
      rintro ⟨-, h2⟩
      exact h2 (by unfold V2VNetworkEnhanced.should_update; exact decide_eq_true hgate)
    rw [if_neg hg]
  · intro snapshot2 ws2 t2 ad2 hlt
    exact update_gate_noop _ snapshot2 t2 ws2 ad2 hlt

theorem update_no_snapshot_advances_clock_witness :
    (V2VNetworkEnhanced.init 150 2 true).update_interval ≤
        (1 : ℝ) - (V2VNetworkEnhanced.init 150 2 true).last_update_time ∧
      (V2VNetworkEnhanced.init 150 2 true).update none false 1 none (fun _ => kinAt 0 0) =
        (false, { V2VNetworkEnhanced.init 150 2 true with last_update_time := 1 }) := by
  have hg : (V2VNetworkEnhanced.init 150 2 true).update_interval ≤
      (1 : ℝ) - (V2VNetworkEnhanced.init 150 2 true).last_update_time := by
    norm_num [V2VNetworkEnhanced.init]
  exact ⟨hg, (update_no_snapshot_advances_clock _ false 1 _ hg).1⟩

theorem counter_iterate_eq_mod : ∀ n : ℕ, (fun c : ℕ => (c + 1) % 128)^[n] 0 = n % 128 := by
  intro n
  induction n with
  | zero => rfl
  | succ m ih =>
    rw [Function.iterate_succ_apply', ih]
    omega

/-- C6: on every performed update, each registered agent's sequence counter
is incremented and wrapped modulo 128, so it always lies in `[0, 128)`; the
counter transition iterated 130 times from 0 yields `130 mod 128 = 2`. -/
theorem update_msg_counter_mod128 (s : V2VNetworkEnhanced) (snapshot : Option Snapshot)
    (force : Bool) (t : ℝ) (ws : Option Snapshot) (ad : ℕ → KinematicSample) (vid : ℕ)
    (hnd : s.vehicles.Nodup) (hmem : vid ∈ s.vehicles)
    (hperf : (s.update snapshot force t ws ad).1 = true) :
    pyGet? (s.update snapshot force t ws ad).2.msg_counters vid =
      some (((pyGet? s.msg_counters vid).getD 0 + 1) % 128) ∧
    ((pyGet? s.msg_counters vid).getD 0 + 1) % 128 < 128 ∧
    (fun c : ℕ => (c + 1) % 128)^[130] 0 = 2 := by
  refine ⟨?_, Nat.mod_lt _ (by norm_num), by rw [counter_iterate_eq_mod]⟩
  rw [update_performed_eq s snapshot force t ws ad hperf, pipeline_msg_counters]
  exact (refreshLoop_get_mem ad t (t - s.last_update_time) s.vehicles
    { s with last_update_time := t } vid hmem hnd).2

theorem update_msg_counter_mod128_witness :
    pyGet? ((s1.update (some ⟨[1]⟩) true 1 none adA).2).msg_counters 1 =
      some (((pyGet? s1.msg_counters 1).getD 0 + 1) % 128) :=
  (update_msg_counter_mod128 s1 (some ⟨[1]⟩) true 1 none adA 1
    (by norm_num [s1, V2VNetworkEnhanced.init, V2VNetworkEnhanced.register])
    (by norm_num [s1, V2VNetworkEnhanced.init, V2VNetworkEnhanced.register]) rfl).1

/-- C5 (amended): during a performed update, every registered agent is
refreshed from its live actor state via `create_bsm_from_carla`, regardless
of whether its id appears in the motion snapshot (the `snapshot` argument is
arbitrary here and never consulted per-agent); no agent is skipped and no
prior BSM survives the cycle. -/
theorem update_refreshes_all_registered (s : V2VNetworkEnhanced)
    (snapshot : Option Snapshot) (force : Bool) (t : ℝ) (ws : Option Snapshot)
    (ad : ℕ → KinematicSample) (vid : ℕ)
    (hnd : s.vehicles.Nodup) (hmem : vid ∈ s.vehicles)
    (hperf : (s.update snapshot force t ws ad).1 = true) :
    pyGet? (s.update snapshot force t ws ad).2.bsm_messages vid =
      some (create_bsm_from_carla (ad vid) vid ((pyGet? s.msg_counters vid).getD 0)
        ((pyGet? s.prev_speeds vid).getD 0) (t - s.last_update_time) t) := by
  rw [update_performed_eq s snapshot force t ws ad hperf, pipeline_bsm_messages]
  exact (refreshLoop_get_mem ad t (t - s.last_update_time) s.vehicles
    { s with last_update_time := t } vid hmem hnd).1

theorem update_refreshes_all_registered_witness :
    pyGet? ((s1.update (some ⟨[]⟩) true 1 none adA).2).bsm_messages 1 =
      some (create_bsm_from_carla (adA 1) 1 ((pyGet? s1.msg_counters 1).getD 0)
        ((pyGet? s1.prev_speeds 1).getD 0) (1 - s1.last_update_time) 1) :=
  update_refreshes_all_registered s1 (some ⟨[]⟩) true 1 none adA 1
    (by norm_num [s1, V2VNetworkEnhanced.init, V2VNetworkEnhanced.register])
    (by norm_num [s1, V2VNetworkEnhanced.init, V2VNetworkEnhanced.register]) rfl

/-- C5 counterexample: agent 1 is registered, has a BSM at latitude 0, and is
absent from the motion snapshot of the next cycle; the claim says it must be
skipped with its prior BSM unchanged, but the performed update refreshes it
from the live actor data (latitude becomes 5). -/
theorem C5_snapshot_absent_still_refreshed_cex :
    (pyGet? stateD.bsm_messages 1).map (fun x => x.latitude) = some 0 ∧
      (1 : ℕ) ∉ (Snapshot.mk []).ids ∧
      (stateD.update (some ⟨[]⟩) true 2 none adD).1 = true ∧
      (pyGet? (stateD.update (some ⟨[]⟩) true 2 none adD).2.bsm_messages 1).map
        (fun x => x.latitude) = some 5 ∧
      (0 : ℝ) ≠ 5 := by
  refine ⟨?_, by simp, rfl, ?_, by norm_num⟩ <;>
    norm_num [stateD, s1, V2VNetworkEnhanced.init, V2VNetworkEnhanced.register,
      V2VNetworkEnhanced.update, V2VNetworkEnhanced.should_update, refreshLoop,
      create_bsm_from_carla, adA, adD, kinAt,
      V2VNetworkEnhanced.discover_neighbors, resetNeighbors, scanOuter, scanInner, scanPair,
      V2VNetworkEnhanced.assess_threats, assessOuter, assessInner, assessPair,
      V2VNetworkEnhanced.update_stats,
      pySet, pyGet?, pyFloatMod, calculate_threat_level, radians, sqrt2500, sqrt25]

/-- C1 (amended): once a pair's distance has been recorded in the cache
(under both orderings, as `_discover_neighbors` always stores it), no later
`update` call changes it: `get_distance` keeps returning the value computed
in the cycle that first scanned the pair, not the current cycle's planar
distance. -/
theorem get_distance_cached_pair_preserved_by_update (s : V2VNetworkEnhanced)
    (snapshot : Option Snapshot) (force : Bool) (t : ℝ) (ws : Option Snapshot)
    (ad : ℕ → KinematicSample) (a b : ℕ) (d : ℝ)
    (hab : s.get_distance a b = some d) (hba : (s.get_distance b a).isSome) :
    (s.update snapshot force t ws ad).2.get_distance a b = some d := by
  by_cases hperf : (s.update snapshot force t ws ad).1 = true
  · unfold V2VNetworkEnhanced.get_distance at hab hba ⊢
    rw [update_performed_eq s snapshot force t ws ad hperf, pipeline_distances]
    have hd2 : (refreshLoop ad t (t - s.last_update_time)
        { s with last_update_time := t } s.vehicles).distances = s.distances :=
      refreshLoop_distances_eq _ _ _ _ _
    have h1 : (pyGet? (refreshLoop ad t (t - s.last_update_time)
        { s with last_update_time := t } s.vehicles).distances (a, b)).isSome := by
      rw [hd2, hab]; rfl
    have h2 : (pyGet? (refreshLoop ad t (t - s.last_update_time)
        { s with last_update_time := t } s.vehicles).distances (b, a)).isSome := by
      rw [hd2]; exact hba
    rw [(discover_distances_preserved _ a b h1 h2).1, hd2, hab]
  · have hf : (s.update snapshot force t ws ad).1 = false := by
      revert hperf
      cases (s.update snapshot force t ws ad).1 <;> simp
    rcases update_not_performed_shape s snapshot force t ws ad hf with h | h <;>
      rw [h] <;> exact hab

theorem get_distance_cached_pair_preserved_by_update_witness :
    stateA.get_distance 1 2 = some 50 ∧ (stateA.get_distance 2 1).isSome = true ∧
      (stateA.update (some ⟨[1, 2]⟩) true 2 none adB).2.get_distance 1 2 = some 50 := by
  have hA : stateA.get_distance 1 2 = some 50 := by
    norm_num [stateA, s0, V2VNetworkEnhanced.init, V2VNetworkEnhanced.register,
      V2VNetworkEnhanced.update, V2VNetworkEnhanced.should_update, refreshLoop,
      create_bsm_from_carla, adA, kinAt,
      V2VNetworkEnhanced.discover_neighbors, resetNeighbors, scanOuter, scanInner, scanPair,
      V2VNetworkEnhanced.assess_threats, assessOuter, assessInner, assessPair,
      V2VNetworkEnhanced.update_stats, V2VNetworkEnhanced.get_distance,
      pySet, pyGet?, pyFloatMod, calculate_threat_level, radians, sqrt2500, sqrt25]
  have hB : (stateA.get_distance 2 1).isSome = true := by
    norm_num [stateA, s0, V2VNetworkEnhanced.init, V2VNetworkEnhanced.register,
      V2VNetworkEnhanced.update, V2VNetworkEnhanced.should_update, refreshLoop,
      create_bsm_from_carla, adA, kinAt,
      V2VNetworkEnhanced.discover_neighbors, resetNeighbors, scanOuter, scanInner, scanPair,
      V2VNetworkEnhanced.assess_threats, assessOuter, assessInner, assessPair,
      V2VNetworkEnhanced.update_stats, V2VNetworkEnhanced.get_distance,
      pySet, pyGet?, pyFloatMod, calculate_threat_level, radians, sqrt2500, sqrt25]
  exact ⟨hA, hB,
    get_distance_cached_pair_preserved_by_update stateA (some ⟨[1, 2]⟩) true 2 none adB
      1 2 50 hA hB⟩

/-- C1 counterexample: after a second cycle in which agent 2 moved from
`(30,40)` to `(3,4)`, the current BSM positions are `(0,0)` and `(3,4)` with
planar distance 5, yet `get_distance` still returns the first cycle's 50: the
distance map is not recomputed from the current cycle's BSM set. -/
theorem C1_distance_cache_stale_cex :
    stateA2.get_distance 1 2 = some 50 ∧
      (stateA2.get_bsm 1).map (fun x => (x.latitude, x.longitude)) = some (0, 0) ∧
      (stateA2.get_bsm 2).map (fun x => (x.latitude, x.longitude)) = some (3, 4) ∧
      Real.sqrt (((3 : ℝ) - 0) ^ 2 + ((4 : ℝ) - 0) ^ 2) = 5 ∧ (5 : ℝ) ≠ 50 := by
  refine ⟨?_, ?_, ?_, by rw [show ((3:ℝ) - 0) ^ 2 + ((4:ℝ) - 0) ^ 2 = 25 by norm_num, sqrt25],
      by norm_num⟩ <;>
    norm_num [stateA2, stateA, s0, V2VNetworkEnhanced.init, V2VNetworkEnhanced.register,
      V2VNetworkEnhanced.update, V2VNetworkEnhanced.should_update, refreshLoop,
      create_bsm_from_carla, adA, adB, kinAt,
      V2VNetworkEnhanced.discover_neighbors, resetNeighbors, scanOuter, scanInner, scanPair,
      V2VNetworkEnhanced.assess_threats, assessOuter, assessInner, assessPair,
      V2VNetworkEnhanced.update_stats, V2VNetworkEnhanced.get_distance,
      V2VNetworkEnhanced.get_bsm,
      pySet, pyGet?, pyFloatMod, calculate_threat_level, radians, sqrt2500, sqrt25]

/-- C3: after every performed update, for every pair of distinct registered
agents `a`, `b` (each of which then has a current BSM), `b` is in the
neighbor list of `a` iff the planar distance between their current BSMs is
at most `maxRange`; consequently neighbor membership is symmetric. -/
theorem update_neighbors_range_iff_and_symm (s : V2VNetworkEnhanced)
    (snapshot : Option Snapshot) (force : Bool) (t : ℝ) (ws : Option Snapshot)
    (ad : ℕ → KinematicSample) (a b : ℕ) (hnd : s.vehicles.Nodup)
    (ha : a ∈ s.vehicles) (hb : b ∈ s.vehicles) (hab : a ≠ b)
    (hperf : (s.update snapshot force t ws ad).1 = true) :
    (∀ ba bb, pyGet? (s.update snapshot force t ws ad).2.bsm_messages a = some ba →
      pyGet? (s.update snapshot force t ws ad).2.bsm_messages b = some bb →
      (b ∈ (pyGet? (s.update snapshot force t ws ad).2.neighbors a).getD [] ↔
        planarDistance ba bb ≤ s.max_range)) ∧
    (b ∈ (pyGet? (s.update snapshot force t ws ad).2.neighbors a).getD [] ↔
      a ∈ (pyGet? (s.update snapshot force t ws ad).2.neighbors b).getD []) := by
  have hveh : (refreshLoop ad t (t - s.last_update_time)
      { s with last_update_time := t } s.vehicles).vehicles = s.vehicles :=
    refreshLoop_vehicles_eq _ _ _ _ _
  have hrange : (refreshLoop ad t (t - s.last_update_time)
      { s with last_update_time := t } s.vehicles).max_range = s.max_range :=
    refreshLoop_max_range_eq _ _ _ _ _
  have hnd2 : (refreshLoop ad t (t - s.last_update_time)
      { s with last_update_time := t } s.vehicles).vehicles.Nodup := by
    rw [hveh]; exact hnd
  have ha2 : a ∈ (refreshLoop ad t (t - s.last_update_time)
      { s with last_update_time := t } s.vehicles).vehicles := by
    rw [hveh]; exact ha
  have hb2 : b ∈ (refreshLoop ad t (t - s.last_update_time)
      { s with last_update_time := t } s.vehicles).vehicles := by
    rw [hveh]; exact hb
  have hupdn : (s.update snapshot force t ws ad).2.neighbors =
      (refreshLoop ad t (t - s.last_update_time)
        { s with last_update_time := t } s.vehicles).discover_neighbors.neighbors := by
    rw [update_performed_eq s snapshot force t ws ad hperf, pipeline_neighbors]
  have hupdb : (s.update snapshot force t ws ad).2.bsm_messages =
      (refreshLoop ad t (t - s.last_update_time)
        { s with last_update_time := t } s.vehicles).bsm_messages := by
    rw [update_performed_eq s snapshot force t ws ad hperf, pipeline_bsm_messages]
  obtain ⟨bsmA, hbsmA⟩ : ∃ x, pyGet? (refreshLoop ad t (t - s.last_update_time)
      { s with last_update_time := t } s.vehicles).bsm_messages a = some x :=
    ⟨_, (refreshLoop_get_mem ad t (t - s.last_update_time) s.vehicles
      { s with last_update_time := t } a ha hnd).1⟩
  obtain ⟨bsmB, hbsmB⟩ : ∃ x, pyGet? (refreshLoop ad t (t - s.last_update_time)
      { s with last_update_time := t } s.vehicles).bsm_messages b = some x :=
    ⟨_, (refreshLoop_get_mem ad t (t - s.last_update_time) s.vehicles
      { s with last_update_time := t } b hb hnd).1⟩
  obtain ⟨curA, hcurA, hmemA⟩ := discover_mem _ a ha2 hnd2
  obtain ⟨curB, hcurB, hmemB⟩ := discover_mem _ b hb2 hnd2
  have hiffA : b ∈ curA ↔ planarDistance bsmA bsmB ≤ s.max_range := by
    rw [hmemA b]
    constructor
    · rintro ⟨b1, hb1, -, -, b2, hb2e, hle⟩
      rw [hbsmA] at hb1
      injection hb1 with hb1
      rw [hbsmB] at hb2e
      injection hb2e with hb2e
      subst hb1; subst hb2e
      rw [hrange] at hle
      exact hle
    · intro hle
      exact ⟨bsmA, hbsmA, hb2, hab, bsmB, hbsmB, by rw [hrange]; exact hle⟩
  have hiffB : a ∈ curB ↔ planarDistance bsmB bsmA ≤ s.max_range := by
    rw [hmemB a]
    constructor
    · rintro ⟨b1, hb1, -, -, b2, hb2e, hle⟩
      rw [hbsmB] at hb1
      injection hb1 with hb1
      rw [hbsmA] at hb2e
      injection hb2e with hb2e
      subst hb1; subst hb2e
      rw [hrange] at hle
      exact hle
    · intro hle
      exact ⟨bsmB, hbsmB, ha2, Ne.symm hab, bsmA, hbsmA, by rw [hrange]; exact hle⟩
  constructor
  · intro ba bb hba hbb
    rw [hupdb, hbsmA] at hba
    injection hba with hba
    rw [hupdb, hbsmB] at hbb
    injection hbb with hbb
    subst hba; subst hbb
    rw [hupdn, hcurA, Option.getD_some]
    exact hiffA
  · rw [hupdn, hcurA, hcurB, Option.getD_some, Option.getD_some]
    rw [hiffA, hiffB, planarDistance_symm]

theorem update_neighbors_range_iff_and_symm_witness :
    2 ∈ (pyGet? ((s0.update (some ⟨[1, 2]⟩) true 1 none adA).2).neighbors 1).getD [] ↔
      1 ∈ (pyGet? ((s0.update (some ⟨[1, 2]⟩) true 1 none adA).2).neighbors 2).getD [] :=
  (update_neighbors_range_iff_and_symm s0 (some ⟨[1, 2]⟩) true 1 none adA 1 2
    (by norm_num [s0, V2VNetworkEnhanced.init, V2VNetworkEnhanced.register])
    (by norm_num [s0, V2VNetworkEnhanced.init, V2VNetworkEnhanced.register])
    (by norm_num [s0, V2VNetworkEnhanced.init, V2VNetworkEnhanced.register])
    (by norm_num) rfl).2

/-- C7 (amended): `enable_bidirectional_sharing` returns exactly the current
neighbors whose cached pairwise distance is truthy (nonzero) and at most
`SHARE_SENSOR_DATA_DISTANCE` (50 m), increments `cooperative_shares` once per
returned recipient, and returns the empty list with the state unchanged when
cooperative perception was disabled at construction.  The distance consulted
is the cached one, and a neighbor at distance exactly 0 is excluded by python
truthiness. -/
theorem enable_bidirectional_sharing_spec (s : V2VNetworkEnhanced) (vid : ℕ)
    (sensor_data : SensorData) :
    s.enable_bidirectional_sharing vid sensor_data =
      if s.enable_coop_perception then
        (((pyGet? s.neighbors vid).getD []).filter (fun n => shareCond s vid n),
         { s with stats := { s.stats with cooperative_shares := s.stats.cooperative_shares +
             (((pyGet? s.neighbors vid).getD []).filter (fun n => shareCond s vid n)).length } })
      else ([], s) := by
  unfold V2VNetworkEnhanced.enable_bidirectional_sharing
  by_cases h : s.enable_coop_perception = true
  · rw [if_neg (by simp [h]), if_pos h, shareLoop_eq, List.nil_append]
  · have hf : s.enable_coop_perception = false := by
      revert h; cases s.enable_coop_perception <;> simp
    rw [if_pos (by simp [hf]), if_neg (by simp [hf])]

/-- C7 counterexample: in `stateC` the two agents stand at the same position,
so agent 2 is a neighbor of agent 1 at cached distance 0 (which is within the
50 m close-range threshold), cooperative perception is enabled, and yet
`enable_bidirectional_sharing` returns no recipients and leaves the state
unchanged, because python truthiness rejects the 0.0 distance. -/
theorem C7_zero_distance_share_cex :
    2 ∈ (pyGet? stateC.neighbors 1).getD [] ∧
      stateC.get_distance 1 2 = some 0 ∧
      (0 : ℝ) ≤ SHARE_SENSOR_DATA_DISTANCE ∧
      stateC.enable_coop_perception = true ∧
      stateC.enable_bidirectional_sharing 1 ⟨0⟩ = ([], stateC) := by
  refine ⟨?_, ?_, by norm_num [SHARE_SENSOR_DATA_DISTANCE], ?_, ?_⟩ <;>
    norm_num [stateC, s0, V2VNetworkEnhanced.init, V2VNetworkEnhanced.register,
      V2VNetworkEnhanced.update, V2VNetworkEnhanced.should_update, refreshLoop,
      create_bsm_from_carla, adC, kinAt,
      V2VNetworkEnhanced.discover_neighbors, resetNeighbors, scanOuter, scanInner, scanPair,
      V2VNetworkEnhanced.assess_threats, assessOuter, assessInner, assessPair,
      V2VNetworkEnhanced.update_stats, V2VNetworkEnhanced.get_distance,
      V2VNetworkEnhanced.enable_bidirectional_sharing, shareLoop, SHARE_SENSOR_DATA_DISTANCE,
      pySet, pyGet?, pyFloatMod, calculate_threat_level, radians]

/-- C8 (amended): `unregister` removes the agent and discards its BSM, its
enhanced message, its message counter, its neighbor list and its previous
speed, and raises no error when the id is absent (it is total); afterwards
`get_bsm` returns nothing and `get_neighbors` returns the empty list for that
id, but the cached pairwise distances (and threat records) are retained
verbatim, so `get_distance` may still return data tied to the removed id. -/
theorem unregister_spec (s : V2VNetworkEnhanced) (vid : ℕ) :
    (s.unregister vid).get_bsm vid = none ∧
      (s.unregister vid).get_neighbors vid = [] ∧
      (s.unregister vid).distances = s.distances ∧
      (s.unregister vid).threats = s.threats ∧
      (s.unregister vid).vehicles = s.vehicles.filter (fun v => ¬ v == vid) ∧
      (s.unregister vid).msg_counters = pyPop s.msg_counters vid ∧
      (s.unregister vid).prev_speeds = pyPop s.prev_speeds vid := by
  refine ⟨?_, ?_, rfl, rfl, rfl, rfl, rfl⟩
  · exact pyGet?_pyPop_self _ _
  · unfold V2VNetworkEnhanced.get_neighbors V2VNetworkEnhanced.unregister
    simp

/-- C8 counterexample: after a completed cycle with agents 1 and 2 at planar
distance 50, unregistering agent 1 leaves `get_distance 1 2` returning
`some 50`: a query surface still returns data tied to the removed id, so the
cached pairwise distances are not discarded. -/
theorem C8_unregister_keeps_distance_cex :
    (stateA.unregister 1).get_distance 1 2 = some 50 ∧
      (stateA.unregister 1).get_bsm 1 = none := by
  constructor <;>
    norm_num [stateA, s0, V2VNetworkEnhanced.init, V2VNetworkEnhanced.register,
      V2VNetworkEnhanced.update, V2VNetworkEnhanced.should_update, refreshLoop,
      create_bsm_from_carla, adA, kinAt,
      V2VNetworkEnhanced.discover_neighbors, resetNeighbors, scanOuter, scanInner, scanPair,
      V2VNetworkEnhanced.assess_threats, assessOuter, assessInner, assessPair,
      V2VNetworkEnhanced.update_stats, V2VNetworkEnhanced.get_distance,
      V2VNetworkEnhanced.get_bsm, V2VNetworkEnhanced.unregister, pyPop,
      pySet, pyGet?, pyFloatMod, calculate_threat_level, radians, sqrt2500, sqrt25]

/-- C9: the `/vehicles/{id}/threats` route passes an infinite time-to-collision
straight through into the `float`-typed `ThreatInfo.time_to_collision` field:
at the failing input (two stationary registered agents 50 m apart, one
performed update) the returned record carries `PyFloat.inf`, a non-finite
numeric value, and no branch of the route produces a null for it — contrary
to the spec's requirement that infinite TTC serialize as null. -/
theorem C9_threats_route_infinite_ttc :
    apiGetThreats stateA 1 = some [ThreatInfo.mk 2 1 PyFloat.inf (Real.sqrt 2500) 1] := by
  norm_num [stateA, s0, V2VNetworkEnhanced.init, V2VNetworkEnhanced.register,
    V2VNetworkEnhanced.update, V2VNetworkEnhanced.should_update, refreshLoop,
    create_bsm_from_carla, adA, kinAt,
    V2VNetworkEnhanced.discover_neighbors, resetNeighbors, scanOuter, scanInner, scanPair,
    V2VNetworkEnhanced.assess_threats, assessOuter, assessInner, assessPair,
    V2VNetworkEnhanced.update_stats, apiGetThreats, V2VNetworkEnhanced.get_threats,
    List.mergeSort,
    pySet, pyGet?, pyFloatMod, calculate_threat_level, radians, PyFloat.gtB,
    sqrt2500, sqrt25]


end V2V
